import Mathlib

/-!
# PasteVault — formal model of the paste lifecycle and access-control core

A shallow embedding, in Lean 4, of the core of the PasteVault repository
(Go backend).  Each definition is translated from a concrete source
function:

* `backend/pkg/validation/validator.go` — `Validator` (field validation,
  `ValidateExpiryDuration`, `ValidateID`, …), together with a faithful
  model of Go's `time.ParseDuration` and of `fmt.Sscanf` with a `"%d"`
  verb, which the validator calls into;
* `backend/pkg/utils/id_generator.go` — `IDGenerator`;
* `backend/pkg/utils` (password helpers) — bcrypt hash / verify;
* `internal/models` (paste model) — `Paste`, `IsExpired`, `HasPassword`,
  and the repository operations used by the handlers;
* `backend/internal/handlers/paste.go` — the `Create`, `GetByID`,
  `GetRaw`, `GetByIDWithPassword` and `Delete` handler cores;
* `internal/auth` (JWT manager) — `TokenManager`;
* `internal/middleware` (rate limiter) — `RateLimiter`;
* `backend/internal/services/cleanup_service.go` — `CleanupService`.

Modelling conventions:

* Go `time.Time` and `time.Duration` are both modelled as `Int`
  nanoseconds (`time.Duration` is an `int64` nanosecond count; `time.Time`
  is reduced to its nanosecond instant).  64-bit overflow is made explicit
  with `wrap64` exactly where the Go code can overflow.
* Go byte strings are modelled as Lean `String`s; where Go's `len` counts
  bytes we use `String.utf8ByteSize`.
* Fallible Go functions returning `(T, error)` are modelled with
  `Except`/`Option`.
* The HTTP transport (routing, JSON decoding, header writing) is outside
  the model: handler cores take the already-decoded request values and
  return either an `APIError`-shaped failure or the response value.
* bcrypt is idealized as a collision-free digest: the "hash" of a
  password is a marker character prepended to the password itself, and
  comparison succeeds exactly on the original password.  This captures
  the correctness contract of `bcrypt.GenerateFromPassword` /
  `CompareHashAndPassword` that the handlers rely on.
* JWT serialization is idealized: a signed token is a record carrying its
  claims, its signing algorithm, and the key it was signed with; signature
  verification is comparison of that key with the expected secret.
* `RateLimiter`'s visitor map and the repository's paste table are
  modelled as association lists / lists with explicit state passing.
-/

namespace PasteVault

/-! ## Go `time` constants (nanoseconds) -/

def Nanosecond : Int := 1

def Microsecond : Int := 1000 * Nanosecond

def Millisecond : Int := 1000 * Microsecond

def Second : Int := 1000 * Millisecond

def Minute : Int := 60 * Second

def Hour : Int := 60 * Minute

/-- Reinterpret an integer as a signed 64-bit value (two's-complement
wrap-around), as Go `int64` arithmetic does on overflow. -/
def wrap64 (n : Int) : Int := (n + 2 ^ 63) % 2 ^ 64 - 2 ^ 63

/-- Seconds since the Unix epoch of a nanosecond instant, Go
`time.Time.Unix()` (floor division, as Go stores whole seconds plus a
nonnegative nanosecond remainder). -/
def unixSeconds (t : Int) : Int := Int.fdiv t 1000000000

/-! ## `fmt.Sscanf(s, "%d", &n)` — the scanner used for the day count

`validator.go`'s day branch parses the day count with `fmt.Sscanf`.
The `%d` verb skips leading white space (but fails on a newline, since
`Sscanf` does not treat newlines as space), consumes an optional sign and
base-10 digits, fails when no digits are present or the value overflows
`int64`, and ignores any trailing input (the format string is
exhausted). -/

def goIsSpace (c : Char) : Bool :=
  c = ' ' ∨ c = '\t' ∨ c = '\u000B' ∨ c = '\u000C' ∨ c = '\r' ∨
  c = '\u0085' ∨ c = '\u00A0'

def digitsToNat (l : List Char) : Nat :=
  l.foldl (fun acc c => acc * 10 + (c.toNat - 48)) 0

def sscanfInt (s : String) : Option Int :=
  let l := s.data.dropWhile goIsSpace
  match l with
  | '\n' :: _ => none
  | _ =>
    let (neg, l2) :=
      match l with
      | '-' :: r => (true, r)
      | '+' :: r => (false, r)
      | _ => (false, l)
    match l2 with
    | [] => none
    | c :: _ =>
      if c.isDigit then
        let n : Nat := digitsToNat (l2.takeWhile Char.isDigit)
        let v : Int := if neg then -(n : Int) else (n : Int)
        if v < -(2 ^ 63) ∨ v > 2 ^ 63 - 1 then none else some v
      else none

/-! ## Go `time.ParseDuration`

Translated from the Go standard library (`time/format.go`), which the
validator's non-day branch calls.  Arithmetic is `uint64` with explicit
overflow checks, exactly as in the source.  The only deviation: Go
computes the fractional contribution as
`uint64(float64(f) * (float64(unit) / scale))`; we compute the same
quantity exactly as `(f * unit) / scale` (truncating division — `scale`
is a power of ten), which agrees except for sub-nanosecond float rounding
on extreme fractional inputs. -/

/-- `leadingInt`: consume leading digits into a `uint64`, failing once the
value would pass `1<<63`. -/
def leadingInt : Nat → List Char → Option (Nat × List Char)
  | x, [] => some (x, [])
  | x, c :: rest =>
    if c.isDigit then
      if x > 2 ^ 63 / 10 then none
      else
        let y := x * 10 + (c.toNat - 48)
        if y > 2 ^ 63 then none
        else leadingInt y rest
    else some (x, c :: rest)

/-- `leadingFraction`: consume digits after the decimal point, keeping the
accumulated value and scale, silently dropping digits once the
accumulator would overflow `int64`. -/
def leadingFraction : Nat → Nat → Bool → List Char → Nat × Nat × List Char
  | x, scale, _, [] => (x, scale, [])
  | x, scale, overflow, c :: rest =>
    if c.isDigit then
      if overflow then leadingFraction x scale overflow rest
      else if x > (2 ^ 63 - 1) / 10 then leadingFraction x scale true rest
      else
        let y := x * 10 + (c.toNat - 48)
        if y > 2 ^ 63 - 1 then leadingFraction x scale true rest
        else leadingFraction y (scale * 10) overflow rest
    else (x, scale, c :: rest)

/-- Unit suffix table of `time.ParseDuration`, values in nanoseconds. -/
def unitValue : List Char → Option Nat
  | ['n', 's'] => some 1
  | ['u', 's'] => some 1000
  | ['µ', 's'] => some 1000
  | ['μ', 's'] => some 1000
  | ['m', 's'] => some 1000000
  | ['s'] => some 1000000000
  | ['m'] => some 60000000000
  | ['h'] => some 3600000000000
  | _ => none

/-- Consume the (non-digit, non-dot) unit token. -/
def takeUnit : List Char → List Char × List Char
  | [] => ([], [])
  | c :: rest =>
    if c = '.' ∨ c.isDigit then ([], c :: rest)
    else
      let (u, r) := takeUnit rest
      (c :: u, r)

/-- The term loop of `ParseDuration`; `fuel` only bounds the recursion
(each pass consumes at least one character, so `length + 1` never runs
out). -/
def parseDurationLoop (fuel : Nat) (d : Nat) (s : List Char) : Option Nat :=
  match fuel with
  | 0 => none
  | fuel + 1 =>
    match s with
    | [] => some d
    | c :: _ =>
      if ¬(c = '.' ∨ c.isDigit) then none
      else
        match leadingInt 0 s with
        | none => none
        | some (v, s1) =>
          let pre := decide (s1.length ≠ s.length)
          let (f, scale, s2, post) :=
            match s1 with
            | '.' :: s1x =>
              let (f, scale, s2) := leadingFraction 0 1 false s1x
              (f, scale, s2, decide (s2.length ≠ s1x.length))
            | _ => (0, 1, s1, false)
          if pre = false ∧ post = false then none
          else
            let (u, s3) := takeUnit s2
            if u = [] then none
            else
              match unitValue u with
              | none => none
              | some unit =>
                if v > 2 ^ 63 / unit then none
                else
                  let vu := v * unit
                  let vf := if f > 0 then vu + f * unit / scale else vu
                  if f > 0 ∧ vf > 2 ^ 63 then none
                  else
                    let dsum := (d + vf) % 2 ^ 64
                    if dsum > 2 ^ 63 then none
                    else parseDurationLoop fuel dsum s3

/-- Go `time.ParseDuration`. `none` models a parse error; the result is
the signed 64-bit nanosecond count. -/
def parseDuration (s : String) : Option Int :=
  let l := s.data
  let (neg, l1) :=
    match l with
    | '-' :: rest => (true, rest)
    | '+' :: rest => (false, rest)
    | _ => (false, l)
  if l1 = ['0'] then some 0
  else if l1 = [] then none
  else
    match parseDurationLoop (l1.length + 1) 0 l1 with
    | none => none
    | some d =>
      if neg then some (if d = 2 ^ 63 then -(2 ^ 63 : Int) else -(d : Int))
      else if d > 2 ^ 63 - 1 then none
      else some (d : Int)

/-! ## `pkg/validation/validator.go` -/

/-- A field-scoped validation error (`validation.ValidationError`). -/
structure ValidationError where
  field : String
  message : String
deriving DecidableEq, Repr

/-- Decidable equality for `Except`, used to state handler results. -/
instance instDecEqExcept {ε α : Type} [DecidableEq ε] [DecidableEq α] :
    DecidableEq (Except ε α) := fun a b =>
  match a, b with
  | .error e, .error f =>
    if h : e = f then .isTrue (by subst h; rfl)
    else .isFalse (fun hc => h (Except.error.inj hc))
  | .error _, .ok _ => .isFalse (fun hc => Except.noConfusion hc)
  | .ok _, .error _ => .isFalse (fun hc => Except.noConfusion hc)
  | .ok x, .ok y =>
    if h : x = y then .isTrue (by subst h; rfl)
    else .isFalse (fun hc => h (Except.ok.inj hc))

/-- `Validator.ValidateString`.  `none` means the value passed.  Lengths
are byte lengths, as Go `len`. -/
def validateString (value fieldName : String) (required : Bool)
    (minLen maxLen : Nat) : Option ValidationError :=
  if required ∧ value = "" then some ⟨fieldName, "is required"⟩
  else if value = "" ∧ ¬required then none
  else if value.utf8ByteSize < minLen then
    some ⟨fieldName, "must be at least " ++ toString minLen ++ " characters"⟩
  else if maxLen > 0 ∧ value.utf8ByteSize > maxLen then
    some ⟨fieldName, "must be at most " ++ toString maxLen ++ " characters"⟩
  else none

/-- `Validator.ValidatePasteContent`. -/
def validatePasteContent (content : String) : Option ValidationError :=
  validateString content "content" true 1 1000000

/-- `Validator.ValidateLanguage`. -/
def validateLanguage (language : String) : Option ValidationError :=
  if language = "" then none
  else if language.utf8ByteSize > 50 then
    some ⟨"language", "must be at most 50 characters"⟩
  else if language.data.all
      (fun c => ¬(c.toNat < 32 ∧ c.toNat ≠ 9 ∧ c.toNat ≠ 10 ∧ c.toNat ≠ 13)) then
    none
  else some ⟨"language", "cannot contain control characters"⟩

def isAlphaNumChar (c : Char) : Bool :=
  ('a' ≤ c ∧ c ≤ 'z') ∨ ('A' ≤ c ∧ c ≤ 'Z') ∨ ('0' ≤ c ∧ c ≤ '9')

/-- `Validator.ValidateID`: exactly six bytes, alphanumeric only. -/
def validateID (id : String) : Option ValidationError :=
  match validateString id "id" true 6 6 with
  | some e => some e
  | none =>
    if id.data.all isAlphaNumChar then none
    else some ⟨"id", "can only contain letters and numbers"⟩

/-- Error message shared by both malformed-duration paths. -/
def invalidDurationMessage : String :=
  "invalid duration format (use format like \x271h\x27, \x2730m\x27, \x277d\x27, or \x27never\x27)"

/-- `Validator.ValidateExpiryDuration`.  Mirrors the source exactly: the
empty string and `"never"` mean no expiry; a trailing `d` byte (for
valid UTF-8, equivalently a trailing `d` character) takes the
`Sscanf`/`× 24h` branch (whose multiplications are 64-bit and may wrap)
which checks only the 1-year maximum; everything else goes through
`time.ParseDuration` and is then checked against both the 1-minute
minimum and the 1-year maximum. -/
def validateExpiryDuration (duration : String) :
    Except ValidationError (Option Int) :=
  if duration = "" then .ok none
  else if duration = "never" then .ok none
  else if duration.utf8ByteSize > 1 ∧ duration.data.getLast? = some 'd' then
    match sscanfInt (duration.dropRight 1) with
    | none => .error ⟨"expiry", invalidDurationMessage⟩
    | some days =>
      let hours := wrap64 (wrap64 (days * 24) * Hour)
      if hours > 365 * 24 * Hour then
        .error ⟨"expiry", "expiry duration cannot exceed 1 year"⟩
      else .ok (some hours)
  else
    match parseDuration duration with
    | none => .error ⟨"expiry", invalidDurationMessage⟩
    | some d =>
      if d < Minute then
        .error ⟨"expiry", "expiry duration must be at least 1 minute"⟩
      else if d > 365 * 24 * Hour then
        .error ⟨"expiry", "expiry duration cannot exceed 1 year"⟩
      else .ok (some d)

/-- `Validator.ValidateCreatePasteRequestFull`: the collected (not
short-circuited) field errors for a create request. -/
def validateCreatePasteRequestFull (content password expiry language : String) :
    List ValidationError :=
  (match validatePasteContent content with | some e => [e] | none => []) ++
  (if password ≠ "" then
    (if password.utf8ByteSize < 4 then
      [⟨"password", "must be at least 4 characters"⟩] else []) ++
    (if password.utf8ByteSize > 128 then
      [⟨"password", "must be at most 128 characters"⟩] else [])
   else []) ++
  (if expiry ≠ "" then
    match validateExpiryDuration expiry with
    | .error e => [e]
    | .ok _ => []
   else []) ++
  (match validateLanguage language with | some e => [e] | none => [])

/-! ## `pkg/utils` — bcrypt password helpers (idealized)

`HashPasswordWithCost` and `VerifyPassword` wrap
`golang.org/x/crypto/bcrypt`.  The digest is idealized as collision-free:
the stored hash is a marker character followed by the password itself,
so comparison succeeds exactly on the hashed password.  (The real scheme
also salts; salt and cost do not affect any property below, which only
relies on bcrypt verifying the original password and rejecting others.)
-/

/-- The idealized bcrypt digest of a password. -/
def bcryptDigest (password : String) : String :=
  ⟨'$' :: password.data⟩

/-- `utils.HashPasswordWithCost` (`bcrypt.MinCost = 4`,
`bcrypt.MaxCost = 31`). -/
def hashPasswordWithCost (password : String) (cost : Nat) :
    Except String String :=
  if password = "" then .error "password cannot be empty"
  else if cost < 4 ∨ cost > 31 then
    .error "invalid cost: must be between 4 and 31"
  else .ok (bcryptDigest password)

/-- `utils.VerifyPassword`. -/
def verifyPassword (password hash : String) : Except String Unit :=
  if password = "" then .error "password cannot be empty"
  else if hash = "" then .error "hash cannot be empty"
  else if hash = bcryptDigest password then .ok ()
  else .error "invalid password"

/-! ## `internal/models` — the `Paste` entity and its repository

The repository is modelled as the list of stored rows; `GetByID` is
lookup on the unique primary key, `Exists` its boolean form, `Delete`
removes the row. -/

/-- `models.Paste`.  `createdAt` is set by the database on insert. -/
structure Paste where
  id : String
  content : String
  language : String
  createdAt : Int
  expiresAt : Option Int
  passwordHash : Option String
  userID : Option Int
deriving DecidableEq, Repr

/-- `Paste.IsExpired`: `time.Now().After(*p.ExpiresAt)` — strictly
after. -/
def Paste.IsExpired (p : Paste) (now : Int) : Bool :=
  match p.expiresAt with
  | none => false
  | some t => now > t

/-- `Paste.HasPassword`:
`p.PasswordHash != nil && *p.PasswordHash != ""`. -/
def Paste.HasPassword (p : Paste) : Bool :=
  match p.passwordHash with
  | none => false
  | some h => h ≠ ""

/-- `PasteRepository.GetByID` (`nil, nil` on no row → `none`). -/
def storeGetByID (store : List Paste) (id : String) : Option Paste :=
  store.find? (fun p => p.id = id)

/-- `PasteRepository.Exists`. -/
def storeExists (store : List Paste) (id : String) : Bool :=
  (storeGetByID store id).isSome

/-- `PasteRepository.Delete`: `DELETE FROM pastes WHERE id = ?`. -/
def storeDelete (store : List Paste) (id : String) : List Paste :=
  store.filter (fun p => p.id ≠ id)

/-! ## `pkg/utils/id_generator.go` — `IDGenerator`

`Generate` draws six uniform indices into the 62-character alphanumeric
charset from `crypto/rand`; the random source is modelled as a stream
`rng : Nat → Fin 62`, the `k`-th value being the `k`-th index drawn.
`GenerateWithCollisionCheck` is instrumented with the number of
`Generate` calls it performed, so that the retry bound is a statement of
the model rather than a side effect. -/

def idCharset : String :=
  "abcdefghijklmnopqrstuvwxyzABCDEFGHIJKLMNOPQRSTUVWXYZ0123456789"

def idCharsetChars : List Char := idCharset.data

/-- `IDGenerator.Generate`: the `attempt`-th generated ID (each attempt
consumes six random indices). -/
def generate (rng : Nat → Fin 62) (attempt : Nat) : String :=
  ⟨(List.range 6).map
    (fun i => idCharsetChars.get ((rng (6 * attempt + i)).cast (by decide)))⟩

/-- The retry loop of `GenerateWithCollisionCheck`; returns the result
together with the total number of `Generate` calls made. -/
def generateWithCollisionCheckAux (rng : Nat → Fin 62)
    (existsChecker : String → Except String Bool) :
    Nat → Nat → Except String String × Nat
  | 0, attempts =>
    (.error "failed to generate unique ID after 10 retries", attempts)
  | fuel + 1, attempts =>
    let id := generate rng attempts
    match existsChecker id with
    | .error _ => (.error "failed to check ID collision", attempts + 1)
    | .ok true => generateWithCollisionCheckAux rng existsChecker fuel (attempts + 1)
    | .ok false => (.ok id, attempts + 1)

/-- `IDGenerator.GenerateWithCollisionCheck` (`maxRetries = 10`). -/
def generateWithCollisionCheck (rng : Nat → Fin 62)
    (existsChecker : String → Except String Bool) :
    Except String String × Nat :=
  generateWithCollisionCheckAux rng existsChecker 10 0

/-! ## `internal/handlers` — error values (`errors.go`) -/

/-- `handlers.APIError` (`Status` is the HTTP status code). -/
structure APIError where
  code : String
  message : String
  status : Nat
deriving DecidableEq, Repr

def ErrInvalidJSON : APIError :=
  ⟨"invalid_json", "Invalid JSON in request body", 400⟩

def ErrContentTooLarge : APIError :=
  ⟨"content_too_large", "Content exceeds maximum size limit", 413⟩

def ErrPasteNotFound : APIError :=
  ⟨"paste_not_found", "Paste not found", 404⟩

def ErrPasteExpired : APIError :=
  ⟨"paste_expired", "Paste has expired", 410⟩

def ErrPasswordRequired : APIError :=
  ⟨"password_required", "This paste is password protected", 401⟩

def ErrInvalidPassword : APIError :=
  ⟨"invalid_password", "Invalid password", 403⟩

def ErrInternalServer : APIError :=
  ⟨"internal_server_error", "Internal server error", 500⟩

def ErrIDGenerationFailed : APIError :=
  ⟨"id_generation_failed", "Failed to generate unique paste ID", 500⟩

/-- The ad-hoc `invalid_id` error built inline by every paste handler. -/
def ErrInvalidID : APIError :=
  ⟨"invalid_id", "Invalid paste ID format", 400⟩

/-- Inline `password_required` error of `GetByIDWithPassword` (built in
the handler, distinct status from `ErrPasswordRequired`). -/
def ErrUnlockPasswordRequired : APIError :=
  ⟨"password_required", "Password is required", 400⟩

/-- Inline `password_not_required` error of `GetByIDWithPassword`. -/
def ErrPasswordNotRequired : APIError :=
  ⟨"password_not_required", "This paste is not password protected", 400⟩

/-- A handler failure: either a single `APIError` (via `WriteError`) or a
collected list of field errors (via `WriteValidationError`). -/
inductive HandlerError where
  | api : APIError → HandlerError
  | validation : List ValidationError → HandlerError
deriving DecidableEq, Repr

/-! ## `internal/handlers/paste.go` — handler cores

Each core is the handler body after transport decoding (method check,
mux vars, JSON decode) and before response encoding.  RFC3339 timestamp
formatting is presentation and is left out: response fields carry the
instants themselves. -/

/-- `handlers.PasteResponse`. -/
structure PasteResponse where
  id : String
  content : String
  language : String
  createdAt : Int
  expiresAt : Option Int
  hasPassword : Bool
deriving DecidableEq, Repr

/-- The response record both GET handlers build from a paste. -/
def mkPasteResponse (p : Paste) : PasteResponse :=
  { id := p.id, content := p.content, language := p.language,
    createdAt := p.createdAt, expiresAt := p.expiresAt,
    hasPassword := p.HasPassword }

/-- `PasteHandler.GetByID` (`GET /paste/{id}?password=…`). -/
def pasteGetByID (store : List Paste) (id password : String) (now : Int) :
    Except HandlerError PasteResponse :=
  match validateID id with
  | some _ => .error (.api ErrInvalidID)
  | none =>
    match storeGetByID store id with
    | none => .error (.api ErrPasteNotFound)
    | some paste =>
      if paste.IsExpired now then .error (.api ErrPasteExpired)
      else if paste.HasPassword then
        if password = "" then .error (.api ErrPasswordRequired)
        else
          match verifyPassword password (paste.passwordHash.getD "") with
          | .error _ => .error (.api ErrInvalidPassword)
          | .ok _ => .ok (mkPasteResponse paste)
      else .ok (mkPasteResponse paste)

/-- `PasteHandler.GetRaw` (`GET /paste/{id}/raw`): same flow, raw
content. -/
def pasteGetRaw (store : List Paste) (id password : String) (now : Int) :
    Except HandlerError String :=
  match validateID id with
  | some _ => .error (.api ErrInvalidID)
  | none =>
    match storeGetByID store id with
    | none => .error (.api ErrPasteNotFound)
    | some paste =>
      if paste.IsExpired now then .error (.api ErrPasteExpired)
      else if paste.HasPassword then
        if password = "" then .error (.api ErrPasswordRequired)
        else
          match verifyPassword password (paste.passwordHash.getD "") with
          | .error _ => .error (.api ErrInvalidPassword)
          | .ok _ => .ok paste.content
      else .ok paste.content

/-- `PasteHandler.GetByIDWithPassword` (`POST /paste/{id}`, the unlock
endpoint).  Note the empty-password check precedes the store lookup. -/
def pasteGetByIDWithPassword (store : List Paste) (id reqPassword : String)
    (now : Int) : Except HandlerError PasteResponse :=
  match validateID id with
  | some _ => .error (.api ErrInvalidID)
  | none =>
    if reqPassword = "" then .error (.api ErrUnlockPasswordRequired)
    else
      match storeGetByID store id with
      | none => .error (.api ErrPasteNotFound)
      | some paste =>
        if paste.IsExpired now then .error (.api ErrPasteExpired)
        else if ¬paste.HasPassword then .error (.api ErrPasswordNotRequired)
        else
          match verifyPassword reqPassword (paste.passwordHash.getD "") with
          | .error _ => .error (.api ErrInvalidPassword)
          | .ok _ => .ok (mkPasteResponse paste)

/-- `PasteHandler.Delete` (`DELETE /paste/{id}`).  The handler takes no
caller identity: the ownership check exists only as a commented-out
`TODO` block in the source, so every existing paste is deleted for
whoever supplies the ID.  Returns the store after deletion. -/
def pasteDelete (store : List Paste) (id : String) :
    Except HandlerError (List Paste) :=
  match validateID id with
  | some _ => .error (.api ErrInvalidID)
  | none =>
    match storeGetByID store id with
    | none => .error (.api ErrPasteNotFound)
    | some _ => .ok (storeDelete store id)

/-- `handlers.CreatePasteRequest` (decoded JSON body; absent fields are
the empty string). -/
structure CreatePasteRequest where
  content : String
  password : String
  expiry : String
  language : String
deriving DecidableEq, Repr

/-- `PasteHandler.Create` (`POST /paste`).  The source sets a 24-hour
default expiry whenever no expiry is supplied — unconditionally: the
user-association branch (and with it the no-expiry default for
authenticated owners) is only a commented-out `TODO`, so `UserID` is
never set.  `createdAt` is the database insert time, here `now`.
Returns the created paste and the store after insertion. -/
def pasteCreate (req : CreatePasteRequest) (now : Int) (rng : Nat → Fin 62)
    (store : List Paste) : Except HandlerError (Paste × List Paste) :=
  let errors :=
    validateCreatePasteRequestFull req.content req.password req.expiry req.language
  if errors ≠ [] then .error (.validation errors)
  else if req.content.utf8ByteSize > 1048576 then .error (.api ErrContentTooLarge)
  else
    match (generateWithCollisionCheck rng (fun id => .ok (storeExists store id))).1 with
    | .error _ => .error (.api ErrIDGenerationFailed)
    | .ok id =>
      let pwHash : Except HandlerError (Option String) :=
        if req.password ≠ "" then
          match hashPasswordWithCost req.password 12 with
          | .error _ => .error (.api ErrInternalServer)
          | .ok h => .ok (some h)
        else .ok none
      match pwHash with
      | .error e => .error e
      | .ok passwordHash =>
        let expiresAt : Except HandlerError (Option Int) :=
          if req.expiry ≠ "" then
            match validateExpiryDuration req.expiry with
            | .error ve => .error (.validation [ve])
            | .ok (some d) => .ok (some (now + d))
            | .ok none => .ok none
          else .ok (some (now + 24 * Hour))
        match expiresAt with
        | .error e => .error e
        | .ok expiresAt =>
          let paste : Paste :=
            { id := id, content := req.content, language := req.language,
              createdAt := now, expiresAt := expiresAt,
              passwordHash := passwordHash, userID := none }
          .ok (paste, paste :: store)

/-! ## `internal/auth` — `TokenManager` (JWT, idealized serialization)

A signed token is a record of its claims, the signing algorithm
(`HS256`, the only one used) and the key it was signed with; validation
checks the algorithm family, the key, and the registered time claims,
the way `jwt/v5`'s parser does (`exp`: reject unless `now` is strictly
before expiry; `nbf`: reject while `now` is before not-before; `iat` is
not checked). -/

inductive SigningAlg where
  | HS256
deriving DecidableEq, Repr

/-- `auth.Claims` (access-token claims). -/
structure Claims where
  userID : Int
  username : String
  expiresAt : Int
  issuedAt : Int
  notBefore : Int
  subject : String
deriving DecidableEq, Repr

/-- `auth.RefreshClaims`. -/
structure RefreshClaims where
  userID : Int
  expiresAt : Int
  issuedAt : Int
  notBefore : Int
  subject : String
deriving DecidableEq, Repr

structure AccessToken where
  claims : Claims
  alg : SigningAlg
  key : String
deriving DecidableEq, Repr

structure RefreshToken where
  claims : RefreshClaims
  alg : SigningAlg
  key : String
deriving DecidableEq, Repr

/-- `auth.TokenPair` (`ExpiresAt` is the access-token expiry as Unix
seconds). -/
structure TokenPair where
  accessToken : AccessToken
  refreshToken : RefreshToken
  expiresAt : Int
deriving DecidableEq, Repr

/-- `auth.TokenManager`. -/
structure TokenManager where
  accessSecret : String
  refreshSecret : String
deriving DecidableEq, Repr

/-- `TokenManager.GenerateTokenPair` at instant `now` (idealized signing
cannot fail, so no error branch remains). -/
def generateTokenPair (tm : TokenManager) (now : Int) (userID : Int)
    (username : String) : TokenPair :=
  let accessExpiresAt := now + 15 * Minute
  let refreshExpiresAt := now + 7 * 24 * Hour
  { accessToken :=
      { claims :=
          { userID := userID, username := username,
            expiresAt := accessExpiresAt, issuedAt := now, notBefore := now,
            subject := toString userID },
        alg := .HS256, key := tm.accessSecret },
    refreshToken :=
      { claims :=
          { userID := userID, expiresAt := refreshExpiresAt,
            issuedAt := now, notBefore := now, subject := toString userID },
        alg := .HS256, key := tm.refreshSecret },
    expiresAt := unixSeconds accessExpiresAt }

/-- `TokenManager.ValidateAccessToken` at instant `now`. -/
def validateAccessToken (tm : TokenManager) (now : Int) (t : AccessToken) :
    Except String Claims :=
  match t.alg with
  | .HS256 =>
    if t.key ≠ tm.accessSecret then
      .error "failed to parse token: signature is invalid"
    else if ¬(now < t.claims.expiresAt) then
      .error "failed to parse token: token is expired"
    else if now < t.claims.notBefore then
      .error "failed to parse token: token is not valid yet"
    else .ok t.claims

/-- `TokenManager.ValidateRefreshToken` at instant `now`. -/
def validateRefreshToken (tm : TokenManager) (now : Int) (t : RefreshToken) :
    Except String RefreshClaims :=
  match t.alg with
  | .HS256 =>
    if t.key ≠ tm.refreshSecret then
      .error "failed to parse refresh token: signature is invalid"
    else if ¬(now < t.claims.expiresAt) then
      .error "failed to parse refresh token: token is expired"
    else if now < t.claims.notBefore then
      .error "failed to parse refresh token: token is not valid yet"
    else .ok t.claims

/-! ## `internal/middleware` — `RateLimiter`

The mutex-protected visitor map becomes an association list with
explicit state passing; each `allow…` call returns the decision and the
new limiter state. -/

/-- `middleware.visitor`. -/
structure Visitor where
  pasteCount : Int
  retrievalCount : Int
  lastSeen : Int
deriving DecidableEq, Repr

/-- `middleware.RateLimiter`. -/
structure RateLimiter where
  visitors : List (String × Visitor)
  pasteLimit : Int
  retrievalLimit : Int
  window : Int
deriving DecidableEq, Repr

/-- `NewRateLimiter` (the cleanup goroutine is a separate transition,
`cleanupVisitorsTick`). -/
def newRateLimiter (pasteLimit retrievalLimit window : Int) : RateLimiter :=
  { visitors := [], pasteLimit := pasteLimit,
    retrievalLimit := retrievalLimit, window := window }

/-- `NewDefaultRateLimiter`: 10 creations and 100 retrievals per hour. -/
def newDefaultRateLimiter : RateLimiter := newRateLimiter 10 100 Hour

/-- `RateLimiter.getOrCreateVisitor`: returns the visitor and the map
(with the fresh record inserted when the key was absent). -/
def getOrCreateVisitor (visitors : List (String × Visitor)) (ip : String)
    (now : Int) : Visitor × List (String × Visitor) :=
  match visitors.lookup ip with
  | some v => (v, visitors)
  | none => (⟨0, 0, now⟩, (ip, ⟨0, 0, now⟩) :: visitors)

/-- Write back a visitor record under its key (Go mutates through the
map's pointer). -/
def setVisitor (visitors : List (String × Visitor)) (ip : String)
    (v : Visitor) : List (String × Visitor) :=
  visitors.map (fun kv => if kv.1 = ip then (ip, v) else kv)

/-- `RateLimiter.allowPasteCreation`. -/
def allowPasteCreation (rl : RateLimiter) (ip : String) (now : Int) :
    Bool × RateLimiter :=
  let (v, m) := getOrCreateVisitor rl.visitors ip now
  if v.pasteCount ≥ rl.pasteLimit then (false, { rl with visitors := m })
  else
    let v2 := { v with pasteCount := v.pasteCount + 1, lastSeen := now }
    (true, { rl with visitors := setVisitor m ip v2 })

/-- `RateLimiter.allowPasteRetrieval`. -/
def allowPasteRetrieval (rl : RateLimiter) (ip : String) (now : Int) :
    Bool × RateLimiter :=
  let (v, m) := getOrCreateVisitor rl.visitors ip now
  if v.retrievalCount ≥ rl.retrievalLimit then (false, { rl with visitors := m })
  else
    let v2 := { v with retrievalCount := v.retrievalCount + 1, lastSeen := now }
    (true, { rl with visitors := setVisitor m ip v2 })

/-- One tick of `cleanupVisitors`: evict entries idle past the window,
reset counters of the rest. -/
def cleanupVisitorsTick (rl : RateLimiter) (now : Int) : RateLimiter :=
  let kept := rl.visitors.filter (fun kv => ¬(kv.2.lastSeen < now - rl.window))
  let reset := kept.map (fun kv => (kv.1, { kv.2 with pasteCount := 0, retrievalCount := 0 }))
  { rl with visitors := reset }

/-! ## `internal/services/cleanup_service.go` — `CleanupService`

The `stopChan` channel is modelled by its observable state; Go's
`close` on an already-closed (or nil) channel panics, modelled as the
error branch. -/

inductive ChanState where
  | nilChan
  | openChan
  | closedChan
deriving DecidableEq, Repr

/-- Go `close(ch)`. -/
def closeChan : ChanState → Except String ChanState
  | .openChan => .ok .closedChan
  | .closedChan => .error "close of closed channel"
  | .nilChan => .error "close of nil channel"

/-- `services.CleanupService` (the repository handle and interval are
irrelevant to its lifecycle and omitted; `tickerRunning` stands for the
started ticker plus worker goroutine). -/
structure CleanupService where
  stopChan : ChanState
  tickerRunning : Bool
deriving DecidableEq, Repr

/-- `NewCleanupService`: `stopChan: make(chan struct\x7b\x7d)`. -/
def newCleanupService : CleanupService :=
  { stopChan := .openChan, tickerRunning := false }

/-- `CleanupService.Start`. -/
def CleanupService.start (s : CleanupService) : CleanupService :=
  { s with tickerRunning := true }

/-- `CleanupService.Stop`: `if s.stopChan != nil \x7b close(s.stopChan) \x7d`.
The nil check does not protect against a second call: closing the
already-closed channel panics, the error branch here. -/
def CleanupService.stop (s : CleanupService) : Except String CleanupService :=
  if s.stopChan ≠ .nilChan then
    match closeChan s.stopChan with
    | .error e => .error e
    | .ok st => .ok { s with stopChan := st }
  else .ok s

/-! ## Concrete fixtures used by witnesses and counterexamples -/

/-- A stored paste expiring at instant 100, used for C4. -/
def c4Paste : Paste :=
  { id := "abc123", content := "hi", language := "", createdAt := 0,
    expiresAt := some 100, passwordHash := none, userID := none }

/-- A password-protected paste and an unprotected one, used for the C5
witness. -/
def c5Protected : Paste :=
  { id := "abc123", content := "topsecret", language := "", createdAt := 0,
    expiresAt := none, passwordHash := some (bcryptDigest "secret1"),
    userID := none }

def c5Plain : Paste :=
  { id := "abc124", content := "open", language := "", createdAt := 0,
    expiresAt := none, passwordHash := none, userID := none }

/-- The all-zero random stream, used by witnesses. -/
def constRng : Nat → Fin 62 := fun _ => ⟨0, by omega⟩

/-- A rate limiter whose client `"1.2.3.4"` has exhausted creations (10
of 10) but not retrievals, used for the C8 witness. -/
def c8Limiter : RateLimiter :=
  { visitors := [("1.2.3.4", ⟨10, 3, 50⟩)], pasteLimit := 10,
    retrievalLimit := 100, window := Hour }

/-- A paste with a non-null empty-string hash, for the C10 witness. -/
def c10Paste : Paste :=
  { id := "abc125", content := "visible", language := "", createdAt := 0,
    expiresAt := none, passwordHash := some "", userID := none }

/-- The create request and resulting paste used by the C1 witness. -/
def c1Req : CreatePasteRequest :=
  { content := "hello", password := "", expiry := "", language := "" }

def c1Paste : Paste :=
  { id := "aaaaaa", content := "hello", language := "", createdAt := 0,
    expiresAt := some (0 + 24 * Hour), passwordHash := none, userID := none }

/-- An account-owned paste (owner 1), for the C2 witness. -/
def c2Paste : Paste :=
  { id := "abc126", content := "mine", language := "", createdAt := 0,
    expiresAt := none, passwordHash := none, userID := some 1 }

/-! ## Shared helper lemmas -/

theorem bcryptDigest_ne_empty (p : String) : bcryptDigest p ≠ "" := by
  intro h
  exact List.noConfusion (congrArg String.data h)

theorem bcryptDigest_inj {p q : String}
    (h : bcryptDigest p = bcryptDigest q) : p = q := by
  have h2 : '$' :: p.data = '$' :: q.data := congrArg String.data h
  injection h2 with _ h3
  calc p = ⟨p.data⟩ := rfl
    _ = ⟨q.data⟩ := by rw [h3]
    _ = q := rfl

theorem verify_bcryptDigest (pw q : String) (hq : q ≠ "") :
    verifyPassword q (bcryptDigest pw)
      = if q = pw then .ok () else .error "invalid password" := by
  unfold verifyPassword
  rw [if_neg hq, if_neg (bcryptDigest_ne_empty pw)]
  by_cases h : q = pw
  · subst h
    rw [if_pos rfl, if_pos rfl]
  · rw [if_neg h, if_neg (fun hc => h (bcryptDigest_inj hc).symm)]

theorem gwccAux_always_exists (rng : Nat → Fin 62) :
    ∀ (fuel a : Nat),
      generateWithCollisionCheckAux rng (fun _ => .ok true) fuel a
        = (.error "failed to generate unique ID after 10 retries", a + fuel) := by
  intro fuel
  induction fuel with
  | zero => intro a; simp [generateWithCollisionCheckAux]
  | succ n ih =>
    intro a
    simp only [generateWithCollisionCheckAux, ih (a + 1)]
    simp only [Prod.mk.injEq, true_and]
    omega

/-! ## The claims -/

/-- C3 counterexample: `"0d"` is a day-suffixed duration below the
one-minute minimum, yet `ValidateExpiryDuration` returns it (a zero
duration) without error — the claim that every duration below one minute
yields a validation error is false. -/
theorem c3_counterexample : validateExpiryDuration "0d" = .ok (some 0) := by decide

/-- C3 (amended): `Parse` returns no expiry and no error for `""` and
`"never"`; day-suffixed tokens are value × 24 hours (`"7d"` = 168 h);
`"30s"` (below the 1-minute minimum), `"400d"` (above the 365-day
maximum) and `"garbage"` are validation errors, never clamped; and every
accepted duration is at most 365 days and — except in the day-suffix
branch, which skips the minimum check entirely (so `"0d"` passes) — at
least one minute. -/
theorem c3_expiry_parse_amended :
    validateExpiryDuration "" = .ok none ∧
    validateExpiryDuration "never" = .ok none ∧
    validateExpiryDuration "1h" = .ok (some Hour) ∧
    validateExpiryDuration "7d" = .ok (some (168 * Hour)) ∧
    validateExpiryDuration "30s"
      = .error ⟨"expiry", "expiry duration must be at least 1 minute"⟩ ∧
    validateExpiryDuration "400d"
      = .error ⟨"expiry", "expiry duration cannot exceed 1 year"⟩ ∧
    validateExpiryDuration "garbage" = .error ⟨"expiry", invalidDurationMessage⟩ ∧
    ∀ (s : String) (d : Int),
      validateExpiryDuration s = .ok (some d) →
      d ≤ 365 * 24 * Hour ∧
      (Minute ≤ d ∨ (s.utf8ByteSize > 1 ∧ s.data.getLast? = some 'd')) := by
  refine ⟨by decide, by decide, by decide, by decide, by decide, by decide,
    by decide, ?_⟩
  intro s d h
  unfold validateExpiryDuration at h
  split at h
  · simp at h
  · split at h
    · simp at h
    · split at h
      · rename_i hday
        split at h
        · simp at h
        · dsimp only at h
          split at h
          · simp at h
          · rename_i days hmax
            simp only [Except.ok.injEq, Option.some.injEq] at h
            subst h
            exact ⟨by omega, Or.inr hday⟩
      · split at h
        · simp at h
        · rename_i d0
          split at h
          · simp at h
          · split at h
            · simp at h
            · rename_i hmin hmax
              simp only [Except.ok.injEq, Option.some.injEq] at h
              subst h
              exact ⟨by omega, Or.inl (by omega)⟩

/-- C3 witness: the universal soundness part of the amended claim,
instantiated at `"7d"`. -/
theorem c3_witness :
    (168 * Hour ≤ 365 * 24 * Hour ∧
      (Minute ≤ 168 * Hour ∨
        ("7d".utf8ByteSize > 1 ∧ "7d".data.getLast? = some 'd'))) :=
  c3_expiry_parse_amended.2.2.2.2.2.2.2 "7d" (168 * Hour) (by decide)

/-- C4 counterexample: `IsExpired` uses Go's strict `time.Now().After`,
so at `now = expires_at` (the claim's boundary case `now >= expires_at`)
`GetPaste` still returns the content instead of failing with Expired. -/
theorem c4_counterexample :
    pasteGetByID [c4Paste] "abc123" "" 100 = .ok (mkPasteResponse c4Paste) := by
  decide

/-- C4 (amended): for every paste with a non-null `expires_at`, every
read — `GetPaste`, `GetRawPaste`, and `UnlockPaste` when a (nonempty)
password is supplied — performed strictly after `expires_at` fails with
the Expired error, even though the row is still in the store (no sweep
involved); Expired is distinct from NotFound.  At `now = expires_at`
exactly, reads still succeed (see the counterexample). -/
theorem c4_reads_fail_after_expiry :
    ∀ (store : List Paste) (id pw : String) (now t : Int) (paste : Paste),
      validateID id = none →
      storeGetByID store id = some paste →
      paste.expiresAt = some t →
      now > t →
      pasteGetByID store id pw now = .error (.api ErrPasteExpired) ∧
      pasteGetRaw store id pw now = .error (.api ErrPasteExpired) ∧
      (pw ≠ "" →
        pasteGetByIDWithPassword store id pw now = .error (.api ErrPasteExpired)) ∧
      ErrPasteExpired ≠ ErrPasteNotFound := by
  intro store id pw now t paste hid hstore hexp hnow
  have hE : paste.IsExpired now = true := by
    simp [Paste.IsExpired, hexp]
    omega
  refine ⟨?_, ?_, ?_, by decide⟩
  · simp [pasteGetByID, hid, hstore, hE]
  · simp [pasteGetRaw, hid, hstore, hE]
  · intro hpw
    simp [pasteGetByIDWithPassword, hid, hstore, hE, hpw]

/-- C4 witness: the amended theorem applied to `c4Paste` one nanosecond
after its expiry. -/
theorem c4_witness :
    pasteGetByID [c4Paste] "abc123" "pw" 101 = .error (.api ErrPasteExpired) ∧
    pasteGetRaw [c4Paste] "abc123" "pw" 101 = .error (.api ErrPasteExpired) ∧
    ("pw" ≠ "" →
      pasteGetByIDWithPassword [c4Paste] "abc123" "pw" 101
        = .error (.api ErrPasteExpired)) ∧
    ErrPasteExpired ≠ ErrPasteNotFound :=
  c4_reads_fail_after_expiry [c4Paste] "abc123" "pw" 101 100 c4Paste
    (by decide) (by decide) (by decide) (by decide)

/-- C5: for a non-expired password-protected paste (hash produced from a
nonempty password `pw`), `GetPaste` with no password fails
PasswordRequired, with a wrong (nonempty) password fails
InvalidPassword, and with the correct password returns the content; and
`UnlockPaste` on a non-expired paste that is not password-protected
fails with password-not-required (a nonempty password being supplied —
the endpoint rejects empty passwords up front). -/
theorem c5_password_gate :
    (∀ (store : List Paste) (id : String) (now : Int) (paste : Paste)
        (pw q : String),
      validateID id = none →
      storeGetByID store id = some paste →
      paste.IsExpired now = false →
      paste.passwordHash = some (bcryptDigest pw) →
      pw ≠ "" →
      pasteGetByID store id "" now = .error (.api ErrPasswordRequired) ∧
      pasteGetByID store id pw now = .ok (mkPasteResponse paste) ∧
      (mkPasteResponse paste).content = paste.content ∧
      (q ≠ "" → q ≠ pw →
        pasteGetByID store id q now = .error (.api ErrInvalidPassword))) ∧
    (∀ (store : List Paste) (id : String) (now : Int) (paste : Paste)
        (p : String),
      validateID id = none →
      storeGetByID store id = some paste →
      paste.IsExpired now = false →
      paste.HasPassword = false →
      p ≠ "" →
      pasteGetByIDWithPassword store id p now
        = .error (.api ErrPasswordNotRequired)) := by
  constructor
  · intro store id now paste pw q hid hstore hexp hhash hpw
    have hHP : paste.HasPassword = true := by
      simp [Paste.HasPassword, hhash]
      exact bcryptDigest_ne_empty pw
    have hgetD : paste.passwordHash.getD "" = bcryptDigest pw := by
      rw [hhash]; rfl
    refine ⟨?_, ?_, rfl, ?_⟩
    · simp [pasteGetByID, hid, hstore, hexp, hHP]
    · simp [pasteGetByID, hid, hstore, hexp, hHP, hpw, hgetD,
        verify_bcryptDigest pw pw hpw]
    · intro hq hqpw
      simp [pasteGetByID, hid, hstore, hexp, hHP, hq, hgetD,
        verify_bcryptDigest pw q hq, hqpw]
  · intro store id now paste p hid hstore hexp hHP hp
    simp [pasteGetByIDWithPassword, hid, hstore, hexp, hHP, hp]

/-- C5 witness: both halves of the theorem at concrete pastes. -/
theorem c5_witness :
    (pasteGetByID [c5Protected] "abc123" "" 7
        = .error (.api ErrPasswordRequired) ∧
      pasteGetByID [c5Protected] "abc123" "secret1" 7
        = .ok (mkPasteResponse c5Protected) ∧
      (mkPasteResponse c5Protected).content = c5Protected.content ∧
      ("wrong" ≠ "" → "wrong" ≠ "secret1" →
        pasteGetByID [c5Protected] "abc123" "wrong" 7
          = .error (.api ErrInvalidPassword))) ∧
    pasteGetByIDWithPassword [c5Plain] "abc124" "secret1" 7
      = .error (.api ErrPasswordNotRequired) :=
  ⟨c5_password_gate.1 [c5Protected] "abc123" 7 c5Protected "secret1" "wrong"
      (by decide) (by decide) (by decide) (by decide) (by decide),
    c5_password_gate.2 [c5Plain] "abc124" 7 c5Plain "secret1"
      (by decide) (by decide) (by decide) (by decide) (by decide)⟩

/-- C6: `GenerateWithCollisionCheck` against an always-exists predicate
fails with the exhaustion error after exactly 10 generation attempts;
against a never-exists predicate it returns the first generated ID, which
is 6 characters long over the 62-symbol alphanumeric charset. -/
theorem c6_allocation_retry_bound :
    (∀ rng : Nat → Fin 62,
      generateWithCollisionCheck rng (fun _ => .ok true)
        = (.error "failed to generate unique ID after 10 retries", 10)) ∧
    (∀ rng : Nat → Fin 62,
      generateWithCollisionCheck rng (fun _ => .ok false)
        = (.ok (generate rng 0), 1) ∧
      (generate rng 0).length = 6 ∧
      ∀ c ∈ (generate rng 0).data, c ∈ idCharsetChars) := by
  constructor
  · intro rng
    rw [generateWithCollisionCheck, gwccAux_always_exists rng 10 0]
  · intro rng
    refine ⟨rfl, rfl, ?_⟩
    intro c hc
    simp only [generate, List.mem_map] at hc
    obtain ⟨i, _, hci⟩ := hc
    rw [← hci]
    exact List.get_mem _ _ _

/-- C6 witness: the second half of the theorem at the constant random
stream, giving a concrete in-charset character. -/
theorem c6_witness : 'a' ∈ idCharsetChars :=
  (c6_allocation_retry_bound.2 constRng).2.2 'a' (by decide)

/-- C7: validating the access token of a freshly issued pair (at the
issuance instant) succeeds and returns claims carrying the account id
and username; the pair's `expires_at` is the access-token expiry, 15
minutes after issuance (as Unix seconds, what `accessExpiresAt.Unix()`
stores). -/
theorem c7_token_roundtrip :
    ∀ (tm : TokenManager) (now userID : Int) (username : String),
      validateAccessToken tm now
          (generateTokenPair tm now userID username).accessToken
        = .ok (generateTokenPair tm now userID username).accessToken.claims ∧
      (generateTokenPair tm now userID username).accessToken.claims.userID
        = userID ∧
      (generateTokenPair tm now userID username).accessToken.claims.username
        = username ∧
      (generateTokenPair tm now userID username).accessToken.claims.expiresAt
        = now + 15 * Minute ∧
      (generateTokenPair tm now userID username).expiresAt
        = unixSeconds (now + 15 * Minute) := by
  intro tm now userID username
  have h15 : (0 : Int) < 15 * Minute := by
    norm_num [Minute, Second, Millisecond, Microsecond, Nanosecond]
  refine ⟨?_, rfl, rfl, rfl, rfl⟩
  simp only [generateTokenPair, validateAccessToken]
  rw [if_neg (by simp), if_neg (by simp; omega), if_neg (by simp)]

/-- C8: once a client's creation counter has reached the creation
threshold, the next `AllowCreation` call for that client returns false
and leaves the limiter state — in particular that client's retrieval
counter and every other client's counters — completely unchanged; and
the retrieval threshold is enforced independently: the same client's
`AllowRetrieval` still returns true while its retrieval counter is below
the retrieval limit. -/
theorem c8_rate_limit_saturation :
    ∀ (rl : RateLimiter) (ip : String) (now : Int) (v : Visitor),
      rl.visitors.lookup ip = some v →
      v.pasteCount ≥ rl.pasteLimit →
      allowPasteCreation rl ip now = (false, rl) ∧
      (v.retrievalCount < rl.retrievalLimit →
        (allowPasteRetrieval rl ip now).1 = true) := by
  intro rl ip now v hlookup hfull
  constructor
  · simp [allowPasteCreation, getOrCreateVisitor, hlookup, hfull]
  · intro hr
    simp [allowPasteRetrieval, getOrCreateVisitor, hlookup, not_le.mpr hr]

/-- C8 witness: the theorem at the concrete saturated limiter. -/
theorem c8_witness :
    allowPasteCreation c8Limiter "1.2.3.4" 60 = (false, c8Limiter) ∧
    ((10 : Int) > 3 → True) ∧
    (allowPasteRetrieval c8Limiter "1.2.3.4" 60).1 = true :=
  ⟨(c8_rate_limit_saturation c8Limiter "1.2.3.4" 60 ⟨10, 3, 50⟩
      (by decide) (by decide)).1,
    fun _ => trivial,
    (c8_rate_limit_saturation c8Limiter "1.2.3.4" 60 ⟨10, 3, 50⟩
      (by decide) (by decide)).2 (by decide)⟩

/-- C9: the claim that `Stop` is idempotent fails on the code: the first
`Stop` closes `stopChan`, and a second `Stop` reaches `close` on the
already-closed channel — a Go panic (the `!= nil` guard does not detect
a closed channel).  The model evaluates both calls on a started
service: the first succeeds, the second faults. -/
theorem c9_second_stop_faults :
    CleanupService.stop (CleanupService.start newCleanupService)
      = .ok { stopChan := .closedChan, tickerRunning := true } ∧
    (CleanupService.stop (CleanupService.start newCleanupService)).bind
        CleanupService.stop
      = .error "close of closed channel" := by
  decide

/-- C10: a paste whose `password_hash` is non-null but the empty string
is not "protected": `HasPassword` is false, `GetPaste` and `GetRawPaste`
return the content with no password supplied, and the response reports
`has_password = false`. -/
theorem c10_empty_hash_not_protected :
    ∀ (store : List Paste) (id pw : String) (now : Int) (paste : Paste),
      validateID id = none →
      storeGetByID store id = some paste →
      paste.passwordHash = some "" →
      paste.IsExpired now = false →
      paste.HasPassword = false ∧
      pasteGetByID store id pw now = .ok (mkPasteResponse paste) ∧
      (mkPasteResponse paste).hasPassword = false ∧
      (mkPasteResponse paste).content = paste.content ∧
      pasteGetRaw store id pw now = .ok paste.content := by
  intro store id pw now paste hid hstore hhash hexp
  have hHP : paste.HasPassword = false := by
    simp [Paste.HasPassword, hhash]
  refine ⟨hHP, ?_, ?_, rfl, ?_⟩
  · simp [pasteGetByID, hid, hstore, hexp, hHP]
  · simp [mkPasteResponse, hHP]
  · simp [pasteGetRaw, hid, hstore, hexp, hHP]

/-- C10 witness: the theorem at `c10Paste`, with no password supplied. -/
theorem c10_witness :
    c10Paste.HasPassword = false ∧
    pasteGetByID [c10Paste] "abc125" "" 9 = .ok (mkPasteResponse c10Paste) ∧
    (mkPasteResponse c10Paste).hasPassword = false ∧
    (mkPasteResponse c10Paste).content = c10Paste.content ∧
    pasteGetRaw [c10Paste] "abc125" "" 9 = .ok c10Paste.content :=
  c10_empty_hash_not_protected [c10Paste] "abc125" "" 9 c10Paste
    (by decide) (by decide) (by decide) (by decide)

/-- C1: for every create request with no expiry supplied, the stored
paste has `expires_at = now + 24h` and a null owner — regardless of any
authenticated caller, because the handler never consults one (the
user-association branch is a commented-out `TODO`).  The anonymous half
of the claim holds; the account-owner half (null `expires_at`) has no
code path. -/
theorem c1_create_ignores_owner_default :
    ∀ (req : CreatePasteRequest) (now : Int) (rng : Nat → Fin 62)
      (store store2 : List Paste) (p : Paste),
      req.expiry = "" →
      pasteCreate req now rng store = .ok (p, store2) →
      p.expiresAt = some (now + 24 * Hour) ∧ p.userID = none := by
  intro req now rng store store2 p hexp h
  unfold pasteCreate at h
  rw [hexp] at h
  dsimp only at h
  repeat' split at h
  all_goals try exact Except.noConfusion h
  rename_i hExpEq
  rw [if_neg (by simp)] at hExpEq
  injection hExpEq with hExp
  injection h with h1
  injection h1 with h2 h3
  rw [← h2]
  exact ⟨hExp.symm, rfl⟩
/-- C1 witness: the theorem at a concrete no-expiry request (creation
instant 0, all-zero randomness, empty store). -/
theorem c1_witness :
    c1Paste.expiresAt = some (0 + 24 * Hour) ∧ c1Paste.userID = none :=
  c1_create_ignores_owner_default c1Req 0 constRng [] [c1Paste] c1Paste
    rfl (by decide)

/-- C2: `Delete` honors deletion of every existing paste — owned or not
— for any caller, because the handler takes no caller identity at all
(the ownership check is a commented-out `TODO`): it never returns
Forbidden.  The anonymous half of the claim (deletion by ID alone)
holds; the owned half (Forbidden on identity mismatch) has no code
path, as the hypothesis `paste.userID = some ownerID` here shows. -/
theorem c2_delete_ignores_ownership :
    ∀ (store : List Paste) (id : String) (paste : Paste) (ownerID : Int),
      validateID id = none →
      storeGetByID store id = some paste →
      paste.userID = some ownerID →
      pasteDelete store id = .ok (storeDelete store id) := by
  intro store id paste ownerID hid hstore hown
  simp [pasteDelete, hid, hstore]

/-- C2 witness: the owned paste is deleted with no identity supplied. -/
theorem c2_witness :
    pasteDelete [c2Paste] "abc126" = .ok (storeDelete [c2Paste] "abc126") :=
  c2_delete_ignores_ownership [c2Paste] "abc126" c2Paste 1
    (by decide) (by decide) (by decide)

end PasteVault
